import Mathlib

/-!
Verification of the certificate codecs of the CardanoPlugin repository.

The certificate code under `src/ThirdParty/CardanoC/src/certs/`
(`update_drep_cert.c` and `stake_registration_cert.c`) is embedded
faithfully.  The collaborators the spec declares external — the CBOR
reader/writer primitives, the validation helpers of `cbor_validation.c`,
the reference-counted object base of `object.c`, the credential and
anchor child entities, and the certificate-type name table — are not
under `src/` and are modelled from the spec (each such definition says
so in its doc comment).

CBOR is abstracted as a stream of data items; the encodings of the
external child entities (credential, anchor) are single opaque items
carrying the decoded value, which matches the spec's treatment of the
children as "opaque recursively-codable values".  The reader tracks the
remaining element count of every open definite-length array, which is
how the real reader decides that it stands at the end of an array.

C out-parameters are modelled as return values; the C null-checks on
out-parameter pointers themselves (`update_drep_cert == NULL` and the
like) have no counterpart in this embedding because a Lean return value
cannot be null.  `_cardano_malloc` is assumed to succeed, so the
allocation-failure branches of the source are dead in the model.
-/

/-- Error codes of the C library (`cardano_error_t`) restricted to the
codes the modelled functions can produce.  The validator errors carry
the diagnostic data the spec requires them to name. -/
inductive cardano_error_t where
  | pointerIsNull
  | memoryAllocationFailed
  | unexpectedType
  | unexpectedEof
  | arityMismatch (validator : String) (expected actual : Nat)
  | schemaViolation (validator field : String) (allowed : List Nat)
      (canonicalName : String) (actual : Nat)
  | trailingData (validator : String)
  deriving DecidableEq, Repr

/-- One CBOR data item as seen through the reader abstraction.  The
encodings of the external child entities (credential, anchor) are kept
as single items carrying the decoded payload; a native-script key hash
is a byte string. -/
inductive CborItem where
  | arr (len : Nat)
  | uint (v : Nat)
  | nullV
  | bstr (v : Nat)
  | credE (v : Nat)
  | anchorE (v : Nat)
  deriving DecidableEq, Repr

/-- The value kinds reported by `cardano_cbor_reader_peek_state`. -/
inductive CborReaderState where
  | startArray
  | unsignedInteger
  | nullValue
  | byteString
  | credentialValue
  | anchorValue
  | endArray
  | finished
  deriving DecidableEq, Repr

/-- The CBOR reader: the remaining data items plus, for every open
definite-length array (innermost first), how many of its elements are
still unread. -/
structure cardano_cbor_reader_t where
  items : List CborItem
  stack : List Nat
  deriving DecidableEq, Repr

/-- The kind of a data item, as the reader reports it when peeking. -/
def itemKind : CborItem → CborReaderState
  | .arr _ => .startArray
  | .uint _ => .unsignedInteger
  | .nullV => .nullValue
  | .bstr _ => .byteString
  | .credE _ => .credentialValue
  | .anchorE _ => .anchorValue

/-- Modelled from the spec: the reader primitive that consumes the next
data item.  Reading an array header opens a new frame holding the
element count of the array (§6: definite-length arrays only); reading
any item inside an open array uses up one element of that array.
Reading fails (`none`) at the end of an open array and at the end of
the buffer. -/
def readNext (r : cardano_cbor_reader_t) :
    Option (CborItem × cardano_cbor_reader_t) :=
  match r.stack with
  | 0 :: _ => none
  | (k + 1) :: rest =>
    match r.items with
    | [] => none
    | i :: is =>
      match i with
      | .arr m => some (i, ⟨is, m :: k :: rest⟩)
      | _ => some (i, ⟨is, k :: rest⟩)
  | [] =>
    match r.items with
    | [] => none
    | i :: is =>
      match i with
      | .arr m => some (i, ⟨is, [m]⟩)
      | _ => some (i, ⟨is, []⟩)

/-- Modelled from the spec: `cardano_cbor_reader_peek_state` reports the
kind of the next value without consuming it; at the end of an open
array it reports the end-of-array state, and it fails on a truncated
buffer. -/
def cardano_cbor_reader_peek_state (r : cardano_cbor_reader_t) :
    Except cardano_error_t CborReaderState :=
  match r.stack, r.items with
  | 0 :: _, _ => .ok .endArray
  | _, i :: _ => .ok (itemKind i)
  | [], [] => .ok .finished
  | _ :: _, [] => .error .unexpectedEof

/-- Modelled from the spec: `cardano_cbor_reader_read_null` consumes one
item, which must be a CBOR null. -/
def cardano_cbor_reader_read_null (r : cardano_cbor_reader_t) :
    cardano_cbor_reader_t × Except cardano_error_t Unit :=
  match readNext r with
  | some (.nullV, r') => (r', .ok ())
  | some (_, r') => (r', .error .unexpectedType)
  | none => (r, .error .unexpectedEof)

/-- Modelled from the spec (§4.3 a, `cbor_validation.c` is not under
`src/`): read an array header and require its exact length, failing
with an error naming the validator, the expected and the actual
length. -/
def cardano_cbor_validate_array_of_n_elements (validator_name : String)
    (r : cardano_cbor_reader_t) (n : Nat) :
    cardano_cbor_reader_t × Except cardano_error_t Unit :=
  match readNext r with
  | some (.arr m, r') =>
    if m = n then (r', .ok ())
    else (r', .error (.arityMismatch validator_name n m))
  | some (_, r') => (r', .error .unexpectedType)
  | none => (r, .error .unexpectedEof)

/-- Modelled from the spec (§4.3 b): read an unsigned integer and
require it to equal the expected enum value, failing with a schema
violation naming the validator, the field, the allowed set and the
canonical name of the expected value. -/
def cardano_cbor_validate_enum_value (validator_name field : String)
    (r : cardano_cbor_reader_t) (expected : Nat) (toStr : Nat → String) :
    cardano_cbor_reader_t × Except cardano_error_t Nat :=
  match readNext r with
  | some (.uint v, r') =>
    if v = expected then (r', .ok v)
    else (r', .error (.schemaViolation validator_name field [expected]
      (toStr expected) v))
  | some (_, r') => (r', .error .unexpectedType)
  | none => (r, .error .unexpectedEof)

/-- Modelled from the spec (§4.3 c): after all expected elements were
consumed the innermost array must be exhausted; trailing data fails. -/
def cardano_cbor_validate_end_array (validator_name : String)
    (r : cardano_cbor_reader_t) :
    cardano_cbor_reader_t × Except cardano_error_t Unit :=
  match r.stack with
  | 0 :: rest => (⟨r.items, rest⟩, .ok ())
  | _ => (r, .error (.trailingData validator_name))

/-- Heap of the external reference-counted child entities (credentials
and anchors).  Handles are naturals below `next`; `credRc`/`anchorRc`
hold the strong reference counts (0 = unallocated or destroyed),
`credVal`/`anchorVal` the decoded payloads, and the freed lists log
every deallocation, that is, every release that brought a count to
zero. -/
structure Heap where
  credRc : Nat → Nat
  credVal : Nat → Nat
  anchorRc : Nat → Nat
  anchorVal : Nat → Nat
  next : Nat
  freedCred : List Nat
  freedAnchor : List Nat

/-- The heap in which nothing was ever allocated. -/
def emptyHeap : Heap :=
  { credRc := fun _ => 0, credVal := fun _ => 0,
    anchorRc := fun _ => 0, anchorVal := fun _ => 0,
    next := 0, freedCred := [], freedAnchor := [] }

/-- A heap is well formed when every handle at or past the allocation
cursor is unallocated. -/
def Heap.wf (h : Heap) : Prop :=
  ∀ p, h.next ≤ p → h.credRc p = 0 ∧ h.anchorRc p = 0

/-- Modelled from the spec (§3, `credential.c` is external):
`cardano_credential_ref`.  A null pointer is a no-op; otherwise the
strong count is incremented. -/
def cardano_credential_ref (h : Heap) (p : Option Nat) : Heap :=
  match p with
  | none => h
  | some c => { h with credRc := Function.update h.credRc c (h.credRc c + 1) }

/-- Modelled from the spec (§3): `cardano_credential_unref`.  A null
pointer is a no-op; a release that brings the count to zero destroys
the object (logged in `freedCred`). -/
def cardano_credential_unref (h : Heap) (p : Option Nat) : Heap :=
  match p with
  | none => h
  | some c =>
    if h.credRc c = 1 then
      { h with credRc := Function.update h.credRc c 0,
               freedCred := c :: h.freedCred }
    else
      { h with credRc := Function.update h.credRc c (h.credRc c - 1) }

/-- Modelled from the spec (§3, `anchor.c` is external):
`cardano_anchor_ref`.  A null pointer is a no-op. -/
def cardano_anchor_ref (h : Heap) (p : Option Nat) : Heap :=
  match p with
  | none => h
  | some a => { h with anchorRc := Function.update h.anchorRc a (h.anchorRc a + 1) }

/-- Modelled from the spec (§3): `cardano_anchor_unref`.  A null
pointer is a no-op; a release that brings the count to zero destroys
the object (logged in `freedAnchor`). -/
def cardano_anchor_unref (h : Heap) (p : Option Nat) : Heap :=
  match p with
  | none => h
  | some a =>
    if h.anchorRc a = 1 then
      { h with anchorRc := Function.update h.anchorRc a 0,
               freedAnchor := a :: h.freedAnchor }
    else
      { h with anchorRc := Function.update h.anchorRc a (h.anchorRc a - 1) }

/-- Allocate a fresh credential object holding `v`, with one strong
reference. -/
def allocCred (h : Heap) (v : Nat) : Heap × Nat :=
  ({ h with credRc := Function.update h.credRc h.next 1,
            credVal := Function.update h.credVal h.next v,
            next := h.next + 1 }, h.next)

/-- Allocate a fresh anchor object holding `v`, with one strong
reference. -/
def allocAnchor (h : Heap) (v : Nat) : Heap × Nat :=
  ({ h with anchorRc := Function.update h.anchorRc h.next 1,
            anchorVal := Function.update h.anchorVal h.next v,
            next := h.next + 1 }, h.next)

/-- Modelled from the spec (§6, external child entity):
`cardano_credential_from_cbor` consumes the credential's encoding (one
data item in this abstraction) and allocates a fresh credential with
one strong reference; on failure the heap is untouched. -/
def cardano_credential_from_cbor (h : Heap) (r : cardano_cbor_reader_t) :
    Except cardano_error_t (Heap × Nat × cardano_cbor_reader_t) :=
  match readNext r with
  | some (.credE v, r') =>
    let hp := allocCred h v
    .ok (hp.1, hp.2, r')
  | some (_, _) => .error .unexpectedType
  | none => .error .unexpectedEof

/-- Modelled from the spec (§6, external child entity):
`cardano_anchor_from_cbor`, analogous to the credential decoder. -/
def cardano_anchor_from_cbor (h : Heap) (r : cardano_cbor_reader_t) :
    Except cardano_error_t (Heap × Nat × cardano_cbor_reader_t) :=
  match readNext r with
  | some (.anchorE v, r') =>
    let hp := allocAnchor h v
    .ok (hp.1, hp.2, r')
  | some (_, _) => .error .unexpectedType
  | none => .error .unexpectedEof

/-- Modelled from the spec (§6): the CBOR writer is an in-memory item
buffer, so writes always succeed; `cardano_cbor_writer_write_start_array`. -/
def cardano_cbor_writer_write_start_array (w : List CborItem) (n : Nat) :
    List CborItem :=
  w ++ [.arr n]

/-- Modelled from the spec (§6): `cardano_cbor_writer_write_uint`. -/
def cardano_cbor_writer_write_uint (w : List CborItem) (v : Nat) :
    List CborItem :=
  w ++ [.uint v]

/-- Modelled from the spec (§6): `cardano_cbor_writer_write_null`. -/
def cardano_cbor_writer_write_null (w : List CborItem) : List CborItem :=
  w ++ [.nullV]

/-- Modelled from the spec (§6, external child entity):
`cardano_credential_to_cbor` emits the credential's encoding as one
opaque item carrying its payload. -/
def cardano_credential_to_cbor (h : Heap) (c : Nat) (w : List CborItem) :
    List CborItem :=
  w ++ [.credE (h.credVal c)]

/-- Modelled from the spec (§6, external child entity):
`cardano_anchor_to_cbor` emits the anchor's encoding as one opaque item
carrying its payload. -/
def cardano_anchor_to_cbor (h : Heap) (a : Nat) (w : List CborItem) :
    List CborItem :=
  w ++ [.anchorE (h.anchorVal a)]

/-- Modelled from the spec (§6, `cert_type.h` is not under `src/`): the
certificate-type discriminant of a stake-registration certificate. -/
def CARDANO_CERT_TYPE_STAKE_REGISTRATION : Nat := 0

/-- Modelled from the spec (§6): the certificate-type discriminant of an
update-DRep certificate. -/
def CARDANO_CERT_TYPE_UPDATE_DREP : Nat := 18

/-- Modelled from the spec (§4.3): `cardano_cert_type_to_string`, the
human-readable name table for certificate-type discriminants. -/
def cardano_cert_type_to_string (t : Nat) : String :=
  if t = CARDANO_CERT_TYPE_STAKE_REGISTRATION then
    "Certificate Type: Stake Registration"
  else if t = CARDANO_CERT_TYPE_UPDATE_DREP then
    "Certificate Type: Update DRep"
  else "Certificate Type: Unknown"

/-- The update-DRep certificate record (`cardano_update_drep_cert_t`):
the object base's reference count and last-error slot, a required
credential handle, and an optional anchor handle. -/
structure cardano_update_drep_cert_t where
  ref_count : Nat
  last_error : String
  credential : Nat
  anchor : Option Nat
  deriving DecidableEq, Repr

/-- The stake-registration certificate record
(`cardano_stake_registration_cert_t`). -/
structure cardano_stake_registration_cert_t where
  ref_count : Nat
  last_error : String
  credential : Nat
  deriving DecidableEq, Repr

/-- Result of a certificate `from_cbor` call: the heap after the call,
the value stored through the out parameter (`none` when the call never
wrote it), and the returned error code. -/
structure DecodeResult (α : Type) where
  heap : Heap
  out : Option α
  err : Except cardano_error_t Unit

/-- `cardano_update_drep_cert_new` (update_drep_cert.c:83).  A null
credential fails; a null anchor is accepted and stored absent; each
non-null argument's reference count is incremented before storing. -/
def cardano_update_drep_cert_new (h : Heap) (drep_credential : Option Nat)
    (anchor : Option Nat) :
    Except cardano_error_t (Heap × cardano_update_drep_cert_t) :=
  match drep_credential with
  | none => .error .pointerIsNull
  | some cred =>
    let h1 := cardano_credential_ref h (some cred)
    let h2 := cardano_anchor_ref h1 anchor
    .ok (h2, { ref_count := 1, last_error := "", credential := cred,
               anchor := anchor })

/-- `cardano_update_drep_cert_from_cbor` (update_drep_cert.c:125):
array of exactly 3, discriminant CARDANO_CERT_TYPE_UPDATE_DREP,
credential, then either a consumed CBOR null (anchor absent, chosen by
peeking the next value's kind) or a decoded anchor; then the new
certificate is built, the local child references are dropped, and the
end of the array is checked. -/
def cardano_update_drep_cert_from_cbor (h : Heap)
    (reader : cardano_cbor_reader_t) :
    DecodeResult cardano_update_drep_cert_t :=
  match cardano_cbor_validate_array_of_n_elements "update_drep_cert" reader 3 with
  | (_, .error e) => ⟨h, none, .error e⟩
  | (r1, .ok _) =>
    match cardano_cbor_validate_enum_value "update_drep_cert" "type" r1
        CARDANO_CERT_TYPE_UPDATE_DREP cardano_cert_type_to_string with
    | (_, .error e) => ⟨h, none, .error e⟩
    | (r2, .ok _) =>
      match cardano_credential_from_cbor h r2 with
      | .error e => ⟨h, none, .error e⟩
      | .ok (h1, credential, r3) =>
        match cardano_cbor_reader_peek_state r3 with
        | .error e => ⟨cardano_credential_unref h1 (some credential), none, .error e⟩
        | .ok state =>
          if state = .nullValue then
            let r4 := (cardano_cbor_reader_read_null r3).1
            match cardano_update_drep_cert_new h1 (some credential) none with
            | .error e =>
              let h2 := cardano_credential_unref h1 (some credential)
              let h3 := cardano_anchor_unref h2 none
              ⟨h3, none, .error e⟩
            | .ok (h2, cert) =>
              let h3 := cardano_credential_unref h2 (some credential)
              let h4 := cardano_anchor_unref h3 none
              match cardano_cbor_validate_end_array "update_drep_cert" r4 with
              | (_, .error e) => ⟨h4, some cert, .error e⟩
              | (_, .ok _) => ⟨h4, some cert, .ok ()⟩
          else
            match cardano_anchor_from_cbor h1 r3 with
            | .error e => ⟨cardano_credential_unref h1 (some credential), none, .error e⟩
            | .ok (h2, anchor, r4) =>
              match cardano_update_drep_cert_new h2 (some credential) (some anchor) with
              | .error e =>
                let h3 := cardano_credential_unref h2 (some credential)
                let h4 := cardano_anchor_unref h3 (some anchor)
                ⟨h4, none, .error e⟩
              | .ok (h3, cert) =>
                let h4 := cardano_credential_unref h3 (some credential)
                let h5 := cardano_anchor_unref h4 (some anchor)
                match cardano_cbor_validate_end_array "update_drep_cert" r4 with
                | (_, .error e) => ⟨h5, some cert, .error e⟩
                | (_, .ok _) => ⟨h5, some cert, .ok ()⟩

/-- `cardano_update_drep_cert_to_cbor` (update_drep_cert.c:213): array
header of the full fixed arity 3, discriminant, credential, then the
anchor's encoding when present and an explicit CBOR null otherwise. -/
def cardano_update_drep_cert_to_cbor (h : Heap)
    (update_drep_cert : Option cardano_update_drep_cert_t)
    (w : List CborItem) : Except cardano_error_t (List CborItem) :=
  match update_drep_cert with
  | none => .error .pointerIsNull
  | some cert =>
    let w1 := cardano_cbor_writer_write_start_array w 3
    let w2 := cardano_cbor_writer_write_uint w1 CARDANO_CERT_TYPE_UPDATE_DREP
    let w3 := cardano_credential_to_cbor h cert.credential w2
    match cert.anchor with
    | some a => .ok (cardano_anchor_to_cbor h a w3)
    | none => .ok (cardano_cbor_writer_write_null w3)

/-- `cardano_update_drep_cert_get_credential` (update_drep_cert.c:271):
null certificate gives null; otherwise the stored credential is
returned with its reference count incremented. -/
def cardano_update_drep_cert_get_credential (h : Heap)
    (certificate : Option cardano_update_drep_cert_t) : Heap × Option Nat :=
  match certificate with
  | none => (h, none)
  | some c => (cardano_credential_ref h (some c.credential), some c.credential)

/-- `cardano_update_drep_cert_set_credential` (update_drep_cert.c:284):
null arguments fail; otherwise ref the new value, unref the old, and
assign, in that order. -/
def cardano_update_drep_cert_set_credential (h : Heap)
    (certificate : Option cardano_update_drep_cert_t)
    (credential : Option Nat) :
    Except cardano_error_t (Heap × cardano_update_drep_cert_t) :=
  match certificate with
  | none => .error .pointerIsNull
  | some c =>
    match credential with
    | none => .error .pointerIsNull
    | some p =>
      let h1 := cardano_credential_ref h (some p)
      let h2 := cardano_credential_unref h1 (some c.credential)
      .ok (h2, { c with credential := p })

/-- `cardano_update_drep_cert_get_anchor` (update_drep_cert.c:306):
null certificate gives null; otherwise the stored anchor pointer is
returned after `cardano_anchor_ref`, which is a no-op when the anchor
is absent. -/
def cardano_update_drep_cert_get_anchor (h : Heap)
    (certificate : Option cardano_update_drep_cert_t) : Heap × Option Nat :=
  match certificate with
  | none => (h, none)
  | some c => (cardano_anchor_ref h c.anchor, c.anchor)

/-- `cardano_update_drep_cert_set_anchor` (update_drep_cert.c:319):
null arguments fail; otherwise ref the new value, unref the old, and
assign, in that order. -/
def cardano_update_drep_cert_set_anchor (h : Heap)
    (certificate : Option cardano_update_drep_cert_t)
    (anchor : Option Nat) :
    Except cardano_error_t (Heap × cardano_update_drep_cert_t) :=
  match certificate with
  | none => .error .pointerIsNull
  | some c =>
    match anchor with
    | none => .error .pointerIsNull
    | some a =>
      let h1 := cardano_anchor_ref h (some a)
      let h2 := cardano_anchor_unref h1 c.anchor
      .ok (h2, { c with anchor := some a })

/-- `cardano_update_drep_cert_unref` (update_drep_cert.c:341), with the
object base's unref modelled from the spec: decrement the count; when
it reaches zero run the deallocator (which releases the children) and
null the caller's pointer. -/
def cardano_update_drep_cert_unref (h : Heap)
    (update_drep_cert : Option cardano_update_drep_cert_t) :
    Heap × Option cardano_update_drep_cert_t :=
  match update_drep_cert with
  | none => (h, none)
  | some c =>
    if c.ref_count = 1 then
      let h1 := cardano_credential_unref h (some c.credential)
      let h2 := cardano_anchor_unref h1 c.anchor
      (h2, none)
    else (h, some { c with ref_count := c.ref_count - 1 })

/-- `cardano_update_drep_cert_ref` (update_drep_cert.c:359): no-op on
null, otherwise the count is incremented. -/
def cardano_update_drep_cert_ref
    (update_drep_cert : Option cardano_update_drep_cert_t) :
    Option cardano_update_drep_cert_t :=
  match update_drep_cert with
  | none => none
  | some c => some { c with ref_count := c.ref_count + 1 }

/-- `cardano_update_drep_cert_refcount` (update_drep_cert.c:370):
zero on null. -/
def cardano_update_drep_cert_refcount
    (update_drep_cert : Option cardano_update_drep_cert_t) : Nat :=
  match update_drep_cert with
  | none => 0
  | some c => c.ref_count

/-- `cardano_stake_registration_cert_new` (stake_registration_cert.c:473). -/
def cardano_stake_registration_cert_new (h : Heap)
    (credential : Option Nat) :
    Except cardano_error_t (Heap × cardano_stake_registration_cert_t) :=
  match credential with
  | none => .error .pointerIsNull
  | some cred =>
    let h1 := cardano_credential_ref h (some cred)
    .ok (h1, { ref_count := 1, last_error := "", credential := cred })

/-- `cardano_stake_registration_cert_from_cbor`
(stake_registration_cert.c:507): array of exactly 2, discriminant
CARDANO_CERT_TYPE_STAKE_REGISTRATION, credential, then the new
certificate is built, the local credential reference is dropped, and
the end of the array is checked. -/
def cardano_stake_registration_cert_from_cbor (h : Heap)
    (reader : cardano_cbor_reader_t) :
    DecodeResult cardano_stake_registration_cert_t :=
  match cardano_cbor_validate_array_of_n_elements "stake_registration_cert" reader 2 with
  | (_, .error e) => ⟨h, none, .error e⟩
  | (r1, .ok _) =>
    match cardano_cbor_validate_enum_value "stake_registration_cert" "type" r1
        CARDANO_CERT_TYPE_STAKE_REGISTRATION cardano_cert_type_to_string with
    | (_, .error e) => ⟨h, none, .error e⟩
    | (r2, .ok _) =>
      match cardano_credential_from_cbor h r2 with
      | .error e => ⟨h, none, .error e⟩
      | .ok (h1, credential, r3) =>
        match cardano_stake_registration_cert_new h1 (some credential) with
        | .error e =>
          let h2 := cardano_credential_unref h1 (some credential)
          ⟨h2, none, .error e⟩
        | .ok (h2, cert) =>
          let h3 := cardano_credential_unref h2 (some credential)
          match cardano_cbor_validate_end_array "stake_registration_cert" r3 with
          | (_, .error e) => ⟨h3, some cert, .error e⟩
          | (_, .ok _) => ⟨h3, some cert, .ok ()⟩

/-- `cardano_stake_registration_cert_to_cbor`
(stake_registration_cert.c:564): array header of arity 2, discriminant,
credential. -/
def cardano_stake_registration_cert_to_cbor (h : Heap)
    (stake_registration_cert : Option cardano_stake_registration_cert_t)
    (w : List CborItem) : Except cardano_error_t (List CborItem) :=
  match stake_registration_cert with
  | none => .error .pointerIsNull
  | some cert =>
    let w1 := cardano_cbor_writer_write_start_array w 2
    let w2 := cardano_cbor_writer_write_uint w1 CARDANO_CERT_TYPE_STAKE_REGISTRATION
    .ok (cardano_credential_to_cbor h cert.credential w2)

/-- `cardano_stake_registration_cert_get_credential`
(stake_registration_cert.c:603). -/
def cardano_stake_registration_cert_get_credential (h : Heap)
    (certificate : Option cardano_stake_registration_cert_t) :
    Heap × Option Nat :=
  match certificate with
  | none => (h, none)
  | some c => (cardano_credential_ref h (some c.credential), some c.credential)

/-- `cardano_stake_registration_cert_set_credential`
(stake_registration_cert.c:616): null arguments fail; otherwise ref the
new value, unref the old, and assign, in that order. -/
def cardano_stake_registration_cert_set_credential (h : Heap)
    (certificate : Option cardano_stake_registration_cert_t)
    (credential : Option Nat) :
    Except cardano_error_t (Heap × cardano_stake_registration_cert_t) :=
  match certificate with
  | none => .error .pointerIsNull
  | some c =>
    match credential with
    | none => .error .pointerIsNull
    | some p =>
      let h1 := cardano_credential_ref h (some p)
      let h2 := cardano_credential_unref h1 (some c.credential)
      .ok (h2, { c with credential := p })

/-- `cardano_stake_registration_cert_unref`
(stake_registration_cert.c:636). -/
def cardano_stake_registration_cert_unref (h : Heap)
    (stake_registration_cert : Option cardano_stake_registration_cert_t) :
    Heap × Option cardano_stake_registration_cert_t :=
  match stake_registration_cert with
  | none => (h, none)
  | some c =>
    if c.ref_count = 1 then
      (cardano_credential_unref h (some c.credential), none)
    else (h, some { c with ref_count := c.ref_count - 1 })

/-- `cardano_stake_registration_cert_ref`
(stake_registration_cert.c:654). -/
def cardano_stake_registration_cert_ref
    (stake_registration_cert : Option cardano_stake_registration_cert_t) :
    Option cardano_stake_registration_cert_t :=
  match stake_registration_cert with
  | none => none
  | some c => some { c with ref_count := c.ref_count + 1 }

/-- `cardano_stake_registration_cert_refcount`
(stake_registration_cert.c:665). -/
def cardano_stake_registration_cert_refcount
    (stake_registration_cert : Option cardano_stake_registration_cert_t) :
    Nat :=
  match stake_registration_cert with
  | none => 0
  | some c => c.ref_count

/-- Modelled from the spec (§3, the native-script implementation is not
under `src/`; `script_n_of_k.h` declares its interface): the recursive
native-script expression tree. -/
inductive cardano_native_script_t where
  | pubKey (keyHash : Nat)
  | scriptAll (scripts : List cardano_native_script_t)
  | scriptAny (scripts : List cardano_native_script_t)
  | scriptNOfK (required : Nat) (scripts : List cardano_native_script_t)
  | invalidAfter (slot : Nat)
  | invalidBefore (slot : Nat)
  deriving Repr

mutual

/-- Modelled from the spec (§4.1 Encode): write the discriminant
(0=PubKey, 1=All, 2=Any, 3=AtLeast, 4=InvalidAfter, 5=InvalidBefore),
then each fixed field in declared order, then the child list as a
length-prefixed array, depth first and in order. -/
def nativeScriptToCbor : cardano_native_script_t → List CborItem
  | .pubKey kh => [.arr 2, .uint 0, .bstr kh]
  | .scriptAll ss =>
    [.arr 2, .uint 1, .arr ss.length] ++ nativeScriptListToCbor ss
  | .scriptAny ss =>
    [.arr 2, .uint 2, .arr ss.length] ++ nativeScriptListToCbor ss
  | .scriptNOfK n ss =>
    [.arr 3, .uint 3, .uint n, .arr ss.length] ++ nativeScriptListToCbor ss
  | .invalidAfter s => [.arr 2, .uint 4, .uint s]
  | .invalidBefore s => [.arr 2, .uint 5, .uint s]

/-- Modelled from the spec (§3): the encodings of the list elements,
insertion order preserved. -/
def nativeScriptListToCbor : List cardano_native_script_t → List CborItem
  | [] => []
  | s :: rest => nativeScriptToCbor s ++ nativeScriptListToCbor rest

end

mutual

/-- Modelled from the spec (§4.1 Decode): read the array header, check
the arity of the selected variant, dispatch on the discriminant
(failing with a schema violation enumerating the legal values on an
unrecognized one), and recurse into child lists.  The fuel argument
bounds the recursion; the source bounds it by the encoded input. -/
def nativeScriptFromCbor : Nat → List CborItem →
    Except cardano_error_t (cardano_native_script_t × List CborItem)
  | 0, _ => .error .unexpectedEof
  | fuel + 1, items =>
    match items with
    | .arr n :: .uint d :: rest =>
      if d = 0 then
        if n = 2 then
          match rest with
          | .bstr kh :: r => .ok (.pubKey kh, r)
          | _ => .error .unexpectedType
        else .error (.arityMismatch "native_script" 2 n)
      else if d = 1 then
        if n = 2 then
          match nativeScriptListFromCbor fuel rest with
          | .error e => .error e
          | .ok (ss, r) => .ok (.scriptAll ss, r)
        else .error (.arityMismatch "native_script" 2 n)
      else if d = 2 then
        if n = 2 then
          match nativeScriptListFromCbor fuel rest with
          | .error e => .error e
          | .ok (ss, r) => .ok (.scriptAny ss, r)
        else .error (.arityMismatch "native_script" 2 n)
      else if d = 3 then
        if n = 3 then
          match rest with
          | .uint req :: rest' =>
            match nativeScriptListFromCbor fuel rest' with
            | .error e => .error e
            | .ok (ss, r) => .ok (.scriptNOfK req ss, r)
          | _ => .error .unexpectedType
        else .error (.arityMismatch "native_script" 3 n)
      else if d = 4 then
        if n = 2 then
          match rest with
          | .uint s :: r => .ok (.invalidAfter s, r)
          | _ => .error .unexpectedType
        else .error (.arityMismatch "native_script" 2 n)
      else if d = 5 then
        if n = 2 then
          match rest with
          | .uint s :: r => .ok (.invalidBefore s, r)
          | _ => .error .unexpectedType
        else .error (.arityMismatch "native_script" 2 n)
      else
        .error (.schemaViolation "native_script" "type" [0, 1, 2, 3, 4, 5]
          "Native Script Type" d)
    | _ => .error .unexpectedType

/-- Modelled from the spec (§4.1 step 3): a script list is a
length-prefixed array of recursively decoded scripts. -/
def nativeScriptListFromCbor : Nat → List CborItem →
    Except cardano_error_t (List cardano_native_script_t × List CborItem)
  | 0, _ => .error .unexpectedEof
  | fuel + 1, items =>
    match items with
    | .arr k :: rest => nativeScriptListElems fuel k rest
    | _ => .error .unexpectedType

/-- Modelled from the spec: decode exactly `k` list elements. -/
def nativeScriptListElems : Nat → Nat → List CborItem →
    Except cardano_error_t (List cardano_native_script_t × List CborItem)
  | _, 0, items => .ok ([], items)
  | 0, _ + 1, _ => .error .unexpectedEof
  | fuel + 1, k + 1, items =>
    match nativeScriptFromCbor fuel items with
    | .error e => .error e
    | .ok (s, rest) =>
      match nativeScriptListElems fuel k rest with
      | .error e => .error e
      | .ok (ss, rest') => .ok (s :: ss, rest')

end

/-- The n-of-k script object declared in `script_n_of_k.h`: the child
list and the required count (the reference-counted base is irrelevant
to the claims about this type and omitted). -/
structure cardano_script_n_of_k_t where
  required : Nat
  scripts : List cardano_native_script_t
  deriving Repr

/-- Modelled from the spec (`script_n_of_k.h:183`): serialize as
`[discriminant 3, required, children]`. -/
def cardano_script_n_of_k_to_cbor (s : cardano_script_n_of_k_t) :
    List CborItem :=
  [.arr 3, .uint 3, .uint s.required, .arr s.scripts.length] ++
    nativeScriptListToCbor s.scripts

/-- Modelled from the spec (`script_n_of_k.h:141`): parse
`[discriminant 3, required, children]` into an n-of-k object. -/
def cardano_script_n_of_k_from_cbor (items : List CborItem) :
    Except cardano_error_t (cardano_script_n_of_k_t × List CborItem) :=
  match items with
  | .arr n :: .uint d :: rest =>
    if d = 3 then
      if n = 3 then
        match rest with
        | .uint req :: rest' =>
          match nativeScriptListFromCbor (rest'.length + 1) rest' with
          | .error e => .error e
          | .ok (ss, r) => .ok (⟨req, ss⟩, r)
        | _ => .error .unexpectedType
      else .error (.arityMismatch "script_n_of_k" 3 n)
    else .error (.schemaViolation "script_n_of_k" "type" [3]
      "Script Type: AtLeast" d)
  | _ => .error .unexpectedType

/-- `cardano_script_n_of_k_get_required` (`script_n_of_k.h:277`):
the required count of the node. -/
def cardano_script_n_of_k_get_required
    (script_n_of_k : Option cardano_script_n_of_k_t) : Nat :=
  match script_n_of_k with
  | none => 0
  | some s => s.required

/-- `cardano_script_n_of_k_get_length` (`script_n_of_k.h:251`): the
number of scripts in the child list, 0 on a null object. -/
def cardano_script_n_of_k_get_length
    (script_n_of_k : Option cardano_script_n_of_k_t) : Nat :=
  match script_n_of_k with
  | none => 0
  | some s => s.scripts.length

/-- True exactly on the end-of-array violation produced by the
end-array validator. -/
def isEndOfArrayViolation : Except cardano_error_t Unit → Bool
  | .error (.trailingData _) => true
  | _ => false

/-- Relation between the heap before a failed decode and after it: every
reference the caller already held is untouched and every object the call
allocated has been released again. -/
def heapRestored (h h' : Heap) : Prop :=
  (∀ p, p < h.next → h'.credRc p = h.credRc p ∧ h'.anchorRc p = h.anchorRc p) ∧
  (∀ p, h.next ≤ p → h'.credRc p = 0 ∧ h'.anchorRc p = 0)

/-- A heap holding one credential and one anchor, each with one strong
reference. -/
def oneHeap : Heap :=
  { credRc := fun _ => 1, credVal := fun _ => 0,
    anchorRc := fun _ => 1, anchorVal := fun _ => 0,
    next := 1, freedCred := [], freedAnchor := [] }

/-- A successful read of a non-array item uses up one element of the
innermost open array frame. -/
theorem readNext_ok_stack {r r' : cardano_cbor_reader_t} {i : CborItem}
    (hok : readNext r = some (i, r')) (hni : ∀ m, i ≠ CborItem.arr m)
    {k : Nat} {s : List Nat} (hs : r.stack = (k + 1) :: s) :
    r'.stack = k :: s := by
  unfold readNext at hok
  rw [hs] at hok
  rcases hi : r.items with _ | ⟨j, js⟩
  · rw [hi] at hok; simp at hok
  · rw [hi] at hok
    cases j <;> simp_all
    all_goals
      first
        | exact absurd hok.1.symm (hni _)
        | rw [← hok.2]

/-- A successful read of an array header opens a frame holding its
length. -/
theorem readNext_ok_arr_stack {r r' : cardano_cbor_reader_t} {m : Nat}
    (hok : readNext r = some (.arr m, r')) :
    ∃ t, r'.stack = m :: t := by
  rcases r with ⟨items, stack⟩
  rcases items with _ | ⟨j, js⟩ <;> rcases stack with _ | ⟨k, s⟩
  · simp [readNext] at hok
  · rcases k with _ | k <;> simp [readNext] at hok
  · cases j <;> simp [readNext] at hok
    obtain ⟨rfl, rfl⟩ := hok
    exact ⟨[], rfl⟩
  · rcases k with _ | k
    · simp [readNext] at hok
    · cases j <;> simp [readNext] at hok
      obtain ⟨rfl, rfl⟩ := hok
      exact ⟨k :: s, rfl⟩

/-- Inverting a successful arity validation. -/
theorem validate_array_ok_parts {name : String} {r r' : cardano_cbor_reader_t}
    {n : Nat} {u : Unit}
    (hok : cardano_cbor_validate_array_of_n_elements name r n = (r', .ok u)) :
    readNext r = some (.arr n, r') := by
  unfold cardano_cbor_validate_array_of_n_elements at hok
  split at hok <;> simp_all
  split at hok <;> simp_all

/-- Inverting a successful discriminant validation. -/
theorem validate_enum_ok_parts {name field : String}
    {r r' : cardano_cbor_reader_t} {expected t : Nat} {toStr : Nat → String}
    (hok : cardano_cbor_validate_enum_value name field r expected toStr
      = (r', .ok t)) :
    readNext r = some (.uint t, r') := by
  unfold cardano_cbor_validate_enum_value at hok
  split at hok <;> simp_all
  split at hok <;> simp_all

/-- Inverting a successful credential decode. -/
theorem credential_from_cbor_ok_parts {h : Heap} {r : cardano_cbor_reader_t}
    {h1 : Heap} {c : Nat} {r' : cardano_cbor_reader_t}
    (hok : cardano_credential_from_cbor h r = .ok (h1, c, r')) :
    ∃ v, readNext r = some (.credE v, r') ∧ h1 = (allocCred h v).1 ∧ c = h.next := by
  unfold cardano_credential_from_cbor at hok
  split at hok <;> simp_all
  exact hok.2.1.symm

/-- Inverting a successful anchor decode. -/
theorem anchor_from_cbor_ok_parts {h : Heap} {r : cardano_cbor_reader_t}
    {h1 : Heap} {a : Nat} {r' : cardano_cbor_reader_t}
    (hok : cardano_anchor_from_cbor h r = .ok (h1, a, r')) :
    ∃ v, readNext r = some (.anchorE v, r') ∧ h1 = (allocAnchor h v).1 ∧ a = h.next := by
  unfold cardano_anchor_from_cbor at hok
  split at hok <;> simp_all
  exact hok.2.1.symm

/-- Peeking a null inside an open array means the next item is a CBOR
null. -/
theorem peek_nullValue_items {r : cardano_cbor_reader_t} {k : Nat} {s : List Nat}
    (hs : r.stack = (k + 1) :: s)
    (hp : cardano_cbor_reader_peek_state r = .ok .nullValue) :
    ∃ is, r.items = .nullV :: is := by
  unfold cardano_cbor_reader_peek_state at hp
  rcases hi : r.items with _ | ⟨j, js⟩ <;> rw [hi, hs] at hp
  · simp at hp
  · cases j <;> simp_all [itemKind]

/-- The end-array validator succeeds exactly at an exhausted innermost
frame. -/
theorem validate_end_array_ok (name : String) {r : cardano_cbor_reader_t}
    {t : List Nat} (hs : r.stack = 0 :: t) :
    cardano_cbor_validate_end_array name r = (⟨r.items, t⟩, .ok ()) := by
  unfold cardano_cbor_validate_end_array
  rw [hs]

/-- A failing step that touched nothing restores trivially. -/
theorem heapRestored_refl {h : Heap} (hwf : h.wf) : heapRestored h h :=
  ⟨fun _ _ => ⟨rfl, rfl⟩, fun p hp => hwf p hp⟩

/-- Allocating a fresh credential and releasing it restores the heap. -/
theorem heapRestored_unref_allocCred {h : Heap} (v : Nat) (hwf : h.wf) :
    heapRestored h (cardano_credential_unref (allocCred h v).1 (some h.next)) := by
  constructor
  · intro p hp
    have hne : p ≠ h.next := Nat.ne_of_lt hp
    simp [cardano_credential_unref, allocCred, Function.update_apply, hne]
  · intro p hp
    rcases Nat.eq_or_lt_of_le hp with hq | hlt
    · subst hq
      simp [cardano_credential_unref, allocCred, Function.update_apply]
      exact (hwf _ le_rfl).2
    · have hne : p ≠ h.next := Nat.ne_of_gt hlt
      simp [cardano_credential_unref, allocCred, Function.update_apply, hne]
      exact hwf p hp

/-- Case analysis of the update-DRep decoder: it either succeeds, or it
returns an error with the out parameter never written and the heap
restored. -/
theorem update_drep_from_cbor_cases (h : Heap) (r : cardano_cbor_reader_t)
    (hwf : h.wf) :
    (cardano_update_drep_cert_from_cbor h r).err = .ok () ∨
    ((cardano_update_drep_cert_from_cbor h r).out = none ∧
      heapRestored h (cardano_update_drep_cert_from_cbor h r).heap) := by
  unfold cardano_update_drep_cert_from_cbor
  split
  · exact Or.inr ⟨rfl, heapRestored_refl hwf⟩
  rename_i r1 u heqA
  split
  · exact Or.inr ⟨rfl, heapRestored_refl hwf⟩
  rename_i r2 t heqB
  split
  · exact Or.inr ⟨rfl, heapRestored_refl hwf⟩
  rename_i h1 credential r3 heqC
  obtain ⟨v, hrdC, hh1, hcred⟩ := credential_from_cbor_ok_parts heqC
  subst hh1
  subst hcred
  obtain ⟨t0, hs1⟩ := readNext_ok_arr_stack (validate_array_ok_parts heqA)
  have hs1' : r1.stack = (2 + 1) :: t0 := hs1
  have hs2 : r2.stack = 2 :: t0 :=
    readNext_ok_stack (validate_enum_ok_parts heqB) (fun m => by simp) hs1'
  have hs2' : r2.stack = (1 + 1) :: t0 := hs2
  have hs3 : r3.stack = 1 :: t0 :=
    readNext_ok_stack hrdC (fun m => by simp) hs2'
  have hs3' : r3.stack = (0 + 1) :: t0 := hs3
  split
  · exact Or.inr ⟨rfl, heapRestored_unref_allocCred v hwf⟩
  rename_i state heqP
  split
  · rename_i hstate
    subst hstate
    obtain ⟨is, hitems⟩ := peek_nullValue_items hs3' heqP
    have hrn : (cardano_cbor_reader_read_null r3).1.stack = 0 :: t0 := by
      simp [cardano_cbor_reader_read_null, readNext, hs3, hitems]
    simp only [cardano_update_drep_cert_new]
    rw [validate_end_array_ok "update_drep_cert" hrn]
    exact Or.inl rfl
  · rename_i hstate
    split
    · exact Or.inr ⟨rfl, heapRestored_unref_allocCred v hwf⟩
    rename_i h2 anchor r4 heqAn
    obtain ⟨v2, hrdAn, hh2, hanch⟩ := anchor_from_cbor_ok_parts heqAn
    have hs4 : r4.stack = 0 :: t0 :=
      readNext_ok_stack hrdAn (fun m => by simp) hs3'
    simp only [cardano_update_drep_cert_new]
    rw [validate_end_array_ok "update_drep_cert" hs4]
    exact Or.inl rfl

/-- Case analysis of the stake-registration decoder, as for the
update-DRep decoder. -/
theorem stake_reg_from_cbor_cases (h : Heap) (r : cardano_cbor_reader_t)
    (hwf : h.wf) :
    (cardano_stake_registration_cert_from_cbor h r).err = .ok () ∨
    ((cardano_stake_registration_cert_from_cbor h r).out = none ∧
      heapRestored h (cardano_stake_registration_cert_from_cbor h r).heap) := by
  unfold cardano_stake_registration_cert_from_cbor
  split
  · exact Or.inr ⟨rfl, heapRestored_refl hwf⟩
  rename_i r1 u heqA
  split
  · exact Or.inr ⟨rfl, heapRestored_refl hwf⟩
  rename_i r2 t heqB
  split
  · exact Or.inr ⟨rfl, heapRestored_refl hwf⟩
  rename_i h1 credential r3 heqC
  obtain ⟨v, hrdC, hh1, hcred⟩ := credential_from_cbor_ok_parts heqC
  subst hh1
  subst hcred
  obtain ⟨t0, hs1⟩ := readNext_ok_arr_stack (validate_array_ok_parts heqA)
  have hs1' : r1.stack = (1 + 1) :: t0 := hs1
  have hs2 : r2.stack = 1 :: t0 :=
    readNext_ok_stack (validate_enum_ok_parts heqB) (fun m => by simp) hs1'
  have hs2' : r2.stack = (0 + 1) :: t0 := hs2
  have hs3 : r3.stack = 0 :: t0 :=
    readNext_ok_stack hrdC (fun m => by simp) hs2'
  simp only [cardano_stake_registration_cert_new]
  rw [validate_end_array_ok "stake_registration_cert" hs3]
  exact Or.inl rfl

/-- C1: for every constructible update-DRep certificate and every
constructible stake-registration certificate, decoding the output of
`to_cbor` with the corresponding `from_cbor` succeeds and yields a
certificate structurally equal to the original: the same credential
payload, and the same anchor presence and payload. -/
theorem cert_roundtrip_structural_eq :
    (∀ (h hd : Heap) (x : cardano_update_drep_cert_t), ∃ w,
      cardano_update_drep_cert_to_cbor h (some x) [] = .ok w ∧
      (cardano_update_drep_cert_from_cbor hd ⟨w, []⟩).err = .ok () ∧
      ∃ y, (cardano_update_drep_cert_from_cbor hd ⟨w, []⟩).out = some y ∧
        (cardano_update_drep_cert_from_cbor hd ⟨w, []⟩).heap.credVal y.credential
          = h.credVal x.credential ∧
        ((x.anchor = none ∧ y.anchor = none) ∨
          (∃ a b, x.anchor = some a ∧ y.anchor = some b ∧
            (cardano_update_drep_cert_from_cbor hd ⟨w, []⟩).heap.anchorVal b
              = h.anchorVal a))) ∧
    (∀ (h hd : Heap) (x : cardano_stake_registration_cert_t), ∃ w,
      cardano_stake_registration_cert_to_cbor h (some x) [] = .ok w ∧
      (cardano_stake_registration_cert_from_cbor hd ⟨w, []⟩).err = .ok () ∧
      ∃ y, (cardano_stake_registration_cert_from_cbor hd ⟨w, []⟩).out = some y ∧
        (cardano_stake_registration_cert_from_cbor hd ⟨w, []⟩).heap.credVal y.credential
          = h.credVal x.credential) := by
  constructor
  · intro h hd x
    rcases hx : x.anchor with _ | a
    · refine ⟨[.arr 3, .uint CARDANO_CERT_TYPE_UPDATE_DREP,
          .credE (h.credVal x.credential), .nullV], ?_,
        ?_, { ref_count := 1, last_error := "", credential := hd.next, anchor := none },
        ?_, ?_, Or.inl ⟨rfl, rfl⟩⟩ <;>
      simp [cardano_update_drep_cert_to_cbor, hx,
        cardano_cbor_writer_write_start_array, cardano_cbor_writer_write_uint,
        cardano_cbor_writer_write_null, cardano_credential_to_cbor,
        cardano_update_drep_cert_from_cbor,
        cardano_cbor_validate_array_of_n_elements,
        cardano_cbor_validate_enum_value, cardano_cbor_validate_end_array,
        cardano_credential_from_cbor, cardano_anchor_from_cbor, readNext,
        allocCred, allocAnchor, cardano_update_drep_cert_new,
        cardano_credential_ref, cardano_credential_unref,
        cardano_anchor_ref, cardano_anchor_unref,
        cardano_cbor_reader_peek_state, itemKind,
        cardano_cbor_reader_read_null,
        CARDANO_CERT_TYPE_UPDATE_DREP, Function.update_apply]
    · refine ⟨[.arr 3, .uint CARDANO_CERT_TYPE_UPDATE_DREP,
          .credE (h.credVal x.credential), .anchorE (h.anchorVal a)], ?_,
        ?_, { ref_count := 1, last_error := "", credential := hd.next, anchor := some (hd.next + 1) },
        ?_, ?_, Or.inr ⟨a, hd.next + 1, rfl, rfl, ?_⟩⟩ <;>
      simp [cardano_update_drep_cert_to_cbor, hx,
        cardano_cbor_writer_write_start_array, cardano_cbor_writer_write_uint,
        cardano_cbor_writer_write_null, cardano_credential_to_cbor,
        cardano_anchor_to_cbor,
        cardano_update_drep_cert_from_cbor,
        cardano_cbor_validate_array_of_n_elements,
        cardano_cbor_validate_enum_value, cardano_cbor_validate_end_array,
        cardano_credential_from_cbor, cardano_anchor_from_cbor, readNext,
        allocCred, allocAnchor, cardano_update_drep_cert_new,
        cardano_credential_ref, cardano_credential_unref,
        cardano_anchor_ref, cardano_anchor_unref,
        cardano_cbor_reader_peek_state, itemKind,
        cardano_cbor_reader_read_null,
        CARDANO_CERT_TYPE_UPDATE_DREP, Function.update_apply]
  · intro h hd x
    refine ⟨[.arr 2, .uint CARDANO_CERT_TYPE_STAKE_REGISTRATION,
        .credE (h.credVal x.credential)], ?_,
      ?_, { ref_count := 1, last_error := "", credential := hd.next }, ?_, ?_⟩ <;>
    simp [cardano_stake_registration_cert_to_cbor,
      cardano_cbor_writer_write_start_array, cardano_cbor_writer_write_uint,
      cardano_credential_to_cbor,
      cardano_stake_registration_cert_from_cbor,
      cardano_cbor_validate_array_of_n_elements,
      cardano_cbor_validate_enum_value, cardano_cbor_validate_end_array,
      cardano_credential_from_cbor, readNext, allocCred,
      cardano_stake_registration_cert_new,
      cardano_credential_ref, cardano_credential_unref,
      CARDANO_CERT_TYPE_STAKE_REGISTRATION, Function.update_apply]

/-- C2: when the update-DRep certificate's optional anchor slot holds a
CBOR null, `from_cbor` (which peeks the next value's kind before
consuming) consumes the null and stores the anchor as absent; a non-null
slot is delegated to the anchor decoder; and `to_cbor` of a certificate
with an absent anchor emits an explicit CBOR null inside an array of the
full fixed arity 3 — the slot is never omitted. -/
theorem update_drep_optional_anchor_null_handling :
    (∀ (hd : Heap) (v : Nat),
      (cardano_update_drep_cert_from_cbor hd
          ⟨[.arr 3, .uint CARDANO_CERT_TYPE_UPDATE_DREP, .credE v, .nullV], []⟩).err
        = .ok () ∧
      ∃ y, (cardano_update_drep_cert_from_cbor hd
          ⟨[.arr 3, .uint CARDANO_CERT_TYPE_UPDATE_DREP, .credE v, .nullV], []⟩).out
        = some y ∧ y.anchor = none) ∧
    (∀ (hd : Heap) (v a : Nat),
      ∃ y p, (cardano_update_drep_cert_from_cbor hd
          ⟨[.arr 3, .uint CARDANO_CERT_TYPE_UPDATE_DREP, .credE v, .anchorE a], []⟩).out
        = some y ∧ y.anchor = some p ∧
        (cardano_update_drep_cert_from_cbor hd
          ⟨[.arr 3, .uint CARDANO_CERT_TYPE_UPDATE_DREP, .credE v, .anchorE a], []⟩).heap.anchorVal p
        = a) ∧
    (∀ (h : Heap) (x : cardano_update_drep_cert_t), x.anchor = none →
      cardano_update_drep_cert_to_cbor h (some x) []
        = .ok [.arr 3, .uint CARDANO_CERT_TYPE_UPDATE_DREP,
               .credE (h.credVal x.credential), .nullV]) := by
  refine ⟨fun hd v => ⟨?_, ⟨{ ref_count := 1, last_error := "", credential := hd.next, anchor := none }, ?_, rfl⟩⟩,
          fun hd v a => ⟨{ ref_count := 1, last_error := "", credential := hd.next, anchor := some (hd.next + 1) }, hd.next + 1, ?_, rfl, ?_⟩,
          fun h x hx => ?_⟩
  · simp [cardano_update_drep_cert_from_cbor,
      cardano_cbor_validate_array_of_n_elements,
      cardano_cbor_validate_enum_value, cardano_cbor_validate_end_array,
      cardano_credential_from_cbor, cardano_anchor_from_cbor, readNext,
      allocCred, allocAnchor, cardano_update_drep_cert_new,
      cardano_credential_ref, cardano_credential_unref,
      cardano_anchor_ref, cardano_anchor_unref,
      cardano_cbor_reader_peek_state, itemKind,
      cardano_cbor_reader_read_null,
      CARDANO_CERT_TYPE_UPDATE_DREP, Function.update_apply]
  · simp [cardano_update_drep_cert_from_cbor,
      cardano_cbor_validate_array_of_n_elements,
      cardano_cbor_validate_enum_value, cardano_cbor_validate_end_array,
      cardano_credential_from_cbor, cardano_anchor_from_cbor, readNext,
      allocCred, allocAnchor, cardano_update_drep_cert_new,
      cardano_credential_ref, cardano_credential_unref,
      cardano_anchor_ref, cardano_anchor_unref,
      cardano_cbor_reader_peek_state, itemKind,
      cardano_cbor_reader_read_null,
      CARDANO_CERT_TYPE_UPDATE_DREP, Function.update_apply]
  · simp [cardano_update_drep_cert_from_cbor,
      cardano_cbor_validate_array_of_n_elements,
      cardano_cbor_validate_enum_value, cardano_cbor_validate_end_array,
      cardano_credential_from_cbor, cardano_anchor_from_cbor, readNext,
      allocCred, allocAnchor, cardano_update_drep_cert_new,
      cardano_credential_ref, cardano_credential_unref,
      cardano_anchor_ref, cardano_anchor_unref,
      cardano_cbor_reader_peek_state, itemKind,
      cardano_cbor_reader_read_null,
      CARDANO_CERT_TYPE_UPDATE_DREP, Function.update_apply]
  · simp [cardano_update_drep_cert_from_cbor,
      cardano_cbor_validate_array_of_n_elements,
      cardano_cbor_validate_enum_value, cardano_cbor_validate_end_array,
      cardano_credential_from_cbor, cardano_anchor_from_cbor, readNext,
      allocCred, allocAnchor, cardano_update_drep_cert_new,
      cardano_credential_ref, cardano_credential_unref,
      cardano_anchor_ref, cardano_anchor_unref,
      cardano_cbor_reader_peek_state, itemKind,
      cardano_cbor_reader_read_null,
      CARDANO_CERT_TYPE_UPDATE_DREP, Function.update_apply]
  · simp [cardano_update_drep_cert_to_cbor, hx,
      cardano_cbor_writer_write_start_array, cardano_cbor_writer_write_uint,
      cardano_cbor_writer_write_null, cardano_credential_to_cbor]

/-- Witness for C2 at a concrete certificate with an absent anchor. -/
theorem update_drep_optional_anchor_null_handling_witness :
    cardano_update_drep_cert_to_cbor emptyHeap
      (some { ref_count := 1, last_error := "", credential := 0, anchor := none }) []
      = .ok [.arr 3, .uint CARDANO_CERT_TYPE_UPDATE_DREP,
             .credE (emptyHeap.credVal 0), .nullV] :=
  update_drep_optional_anchor_null_handling.2.2 emptyHeap
    { ref_count := 1, last_error := "", credential := 0, anchor := none } rfl

/-- C3: every failing run of a certificate `from_cbor` (update-DRep or
stake-registration) returns on the first failure with the child's error
propagated unchanged; all already-acquired child references are released
before returning (`heapRestored`), and the out parameter is never
written, so no partially constructed certificate is retained by the
caller on error. -/
theorem cert_from_cbor_error_unwinding :
    (∀ (h : Heap) (r : cardano_cbor_reader_t) (e : cardano_error_t), h.wf →
      (cardano_update_drep_cert_from_cbor h r).err = .error e →
      (cardano_update_drep_cert_from_cbor h r).out = none ∧
      heapRestored h (cardano_update_drep_cert_from_cbor h r).heap) ∧
    (∀ (h : Heap) (r : cardano_cbor_reader_t) (e : cardano_error_t), h.wf →
      (cardano_stake_registration_cert_from_cbor h r).err = .error e →
      (cardano_stake_registration_cert_from_cbor h r).out = none ∧
      heapRestored h (cardano_stake_registration_cert_from_cbor h r).heap) ∧
    (∀ (h : Heap) (r r1 r2 : cardano_cbor_reader_t) (t : Nat) (e : cardano_error_t),
      cardano_cbor_validate_array_of_n_elements "update_drep_cert" r 3 = (r1, .ok ()) →
      cardano_cbor_validate_enum_value "update_drep_cert" "type" r1
        CARDANO_CERT_TYPE_UPDATE_DREP cardano_cert_type_to_string = (r2, .ok t) →
      cardano_credential_from_cbor h r2 = .error e →
      (cardano_update_drep_cert_from_cbor h r).err = .error e) ∧
    (∀ (h h1 : Heap) (r r1 r2 r3 : cardano_cbor_reader_t) (t c : Nat)
        (st : CborReaderState) (e : cardano_error_t),
      cardano_cbor_validate_array_of_n_elements "update_drep_cert" r 3 = (r1, .ok ()) →
      cardano_cbor_validate_enum_value "update_drep_cert" "type" r1
        CARDANO_CERT_TYPE_UPDATE_DREP cardano_cert_type_to_string = (r2, .ok t) →
      cardano_credential_from_cbor h r2 = .ok (h1, c, r3) →
      cardano_cbor_reader_peek_state r3 = .ok st → st ≠ .nullValue →
      cardano_anchor_from_cbor h1 r3 = .error e →
      (cardano_update_drep_cert_from_cbor h r).err = .error e) ∧
    (∀ (h : Heap) (r r1 r2 : cardano_cbor_reader_t) (t : Nat) (e : cardano_error_t),
      cardano_cbor_validate_array_of_n_elements "stake_registration_cert" r 2 = (r1, .ok ()) →
      cardano_cbor_validate_enum_value "stake_registration_cert" "type" r1
        CARDANO_CERT_TYPE_STAKE_REGISTRATION cardano_cert_type_to_string = (r2, .ok t) →
      cardano_credential_from_cbor h r2 = .error e →
      (cardano_stake_registration_cert_from_cbor h r).err = .error e) := by
  refine ⟨?_, ?_, ?_, ?_, ?_⟩
  · intro h r e hwf herr
    rcases update_drep_from_cbor_cases h r hwf with hok | hres
    · rw [herr] at hok
      exact absurd hok (by simp)
    · exact hres
  · intro h r e hwf herr
    rcases stake_reg_from_cbor_cases h r hwf with hok | hres
    · rw [herr] at hok
      exact absurd hok (by simp)
    · exact hres
  · intro h r r1 r2 t e hA hB hC
    simp [cardano_update_drep_cert_from_cbor, hA, hB, hC]
  · intro h h1 r r1 r2 r3 t c st e hA hB hC hP hne hAn
    simp [cardano_update_drep_cert_from_cbor, hA, hB, hC, hP, hne, hAn]
  · intro h r r1 r2 t e hA hB hC
    simp [cardano_stake_registration_cert_from_cbor, hA, hB, hC]

/-- Witness for C3 at a concrete failing decode (wrong arity). -/
theorem cert_from_cbor_error_unwinding_witness :
    (cardano_update_drep_cert_from_cbor emptyHeap ⟨[.arr 2], []⟩).out = none :=
  (cert_from_cbor_error_unwinding.1 emptyHeap ⟨[.arr 2], []⟩
    (.arityMismatch "update_drep_cert" 3 2) (fun _ _ => ⟨rfl, rfl⟩) rfl).1

/-- C4 (counterexample): decoding the stake-registration content with a
trailing third element fails with the exact-arity schema violation
(expected 2, actual 3), not with an end-of-array violation — the arity
check runs before any field is decoded, so the end-of-array check is
never reached. -/
theorem stake_reg_trailing_element_not_end_array_error :
    (cardano_stake_registration_cert_from_cbor emptyHeap
        ⟨[.arr 3, .uint 0, .credE 5, .uint 7], []⟩).err =
      .error (.arityMismatch "stake_registration_cert" 2 3) ∧
    isEndOfArrayViolation (cardano_stake_registration_cert_from_cbor emptyHeap
        ⟨[.arr 3, .uint 0, .credE 5, .uint 7], []⟩).err = false :=
  ⟨rfl, rfl⟩

/-- C4 (amended): decoding the two-element array
`[discriminant=STAKE_REGISTRATION, credential_cbor]` succeeds, and
decoding the same content with a trailing third element fails — but
with the exact-arity schema violation naming expected length 2 and
actual length 3, not with an end-of-array violation, and no certificate
is produced. -/
theorem stake_reg_exact_arity_check (hd : Heap) (v : Nat) (extra : CborItem) :
    ((cardano_stake_registration_cert_from_cbor hd
        ⟨[.arr 2, .uint CARDANO_CERT_TYPE_STAKE_REGISTRATION, .credE v], []⟩).err
        = .ok () ∧
      ∃ y, (cardano_stake_registration_cert_from_cbor hd
        ⟨[.arr 2, .uint CARDANO_CERT_TYPE_STAKE_REGISTRATION, .credE v], []⟩).out
        = some y) ∧
    ((cardano_stake_registration_cert_from_cbor hd
        ⟨[.arr 3, .uint CARDANO_CERT_TYPE_STAKE_REGISTRATION, .credE v, extra], []⟩).err
        = .error (.arityMismatch "stake_registration_cert" 2 3) ∧
      (cardano_stake_registration_cert_from_cbor hd
        ⟨[.arr 3, .uint CARDANO_CERT_TYPE_STAKE_REGISTRATION, .credE v, extra], []⟩).out
        = none) := by
  constructor
  · constructor
    · simp [cardano_stake_registration_cert_from_cbor,
        cardano_cbor_validate_array_of_n_elements,
        cardano_cbor_validate_enum_value, cardano_cbor_validate_end_array,
        cardano_credential_from_cbor, readNext, allocCred,
        cardano_stake_registration_cert_new, cardano_credential_ref,
        cardano_credential_unref, CARDANO_CERT_TYPE_STAKE_REGISTRATION,
        Function.update_apply]
    · refine ⟨{ ref_count := 1, last_error := "", credential := hd.next }, ?_⟩
      simp [cardano_stake_registration_cert_from_cbor,
        cardano_cbor_validate_array_of_n_elements,
        cardano_cbor_validate_enum_value, cardano_cbor_validate_end_array,
        cardano_credential_from_cbor, readNext, allocCred,
        cardano_stake_registration_cert_new, cardano_credential_ref,
        cardano_credential_unref, CARDANO_CERT_TYPE_STAKE_REGISTRATION,
        Function.update_apply]
  · constructor
    · simp [cardano_stake_registration_cert_from_cbor,
        cardano_cbor_validate_array_of_n_elements, readNext,
        CARDANO_CERT_TYPE_STAKE_REGISTRATION]
    · simp [cardano_stake_registration_cert_from_cbor,
        cardano_cbor_validate_array_of_n_elements, readNext,
        CARDANO_CERT_TYPE_STAKE_REGISTRATION]

/-- C5: when the leading discriminant is not the expected
certificate-type value, `from_cbor` fails with a schema violation
naming the allowed set and the expected type's canonical name, and no
certificate is produced. -/
theorem cert_from_cbor_wrong_discriminant_schema_violation :
    (∀ (hd : Heap) (d : Nat) (rest : List CborItem),
      d ≠ CARDANO_CERT_TYPE_UPDATE_DREP →
      (cardano_update_drep_cert_from_cbor hd ⟨.arr 3 :: .uint d :: rest, []⟩).err
        = .error (.schemaViolation "update_drep_cert" "type"
            [CARDANO_CERT_TYPE_UPDATE_DREP]
            (cardano_cert_type_to_string CARDANO_CERT_TYPE_UPDATE_DREP) d) ∧
      (cardano_update_drep_cert_from_cbor hd ⟨.arr 3 :: .uint d :: rest, []⟩).out
        = none) ∧
    (∀ (hd : Heap) (d : Nat) (rest : List CborItem),
      d ≠ CARDANO_CERT_TYPE_STAKE_REGISTRATION →
      (cardano_stake_registration_cert_from_cbor hd ⟨.arr 2 :: .uint d :: rest, []⟩).err
        = .error (.schemaViolation "stake_registration_cert" "type"
            [CARDANO_CERT_TYPE_STAKE_REGISTRATION]
            (cardano_cert_type_to_string CARDANO_CERT_TYPE_STAKE_REGISTRATION) d) ∧
      (cardano_stake_registration_cert_from_cbor hd ⟨.arr 2 :: .uint d :: rest, []⟩).out
        = none) := by
  constructor
  · intro hd d rest hne
    simp only [CARDANO_CERT_TYPE_UPDATE_DREP] at hne
    constructor <;>
      simp [cardano_update_drep_cert_from_cbor,
        cardano_cbor_validate_array_of_n_elements,
        cardano_cbor_validate_enum_value, readNext,
        CARDANO_CERT_TYPE_UPDATE_DREP, hne]
  · intro hd d rest hne
    simp only [CARDANO_CERT_TYPE_STAKE_REGISTRATION] at hne
    constructor <;>
      simp [cardano_stake_registration_cert_from_cbor,
        cardano_cbor_validate_array_of_n_elements,
        cardano_cbor_validate_enum_value, readNext,
        CARDANO_CERT_TYPE_STAKE_REGISTRATION, hne]

/-- Witness for C5 at the concrete discriminant 7. -/
theorem cert_from_cbor_wrong_discriminant_schema_violation_witness :
    (cardano_update_drep_cert_from_cbor emptyHeap ⟨[.arr 3, .uint 7], []⟩).out
      = none ∧
    (cardano_stake_registration_cert_from_cbor emptyHeap ⟨[.arr 2, .uint 7], []⟩).out
      = none :=
  ⟨(cert_from_cbor_wrong_discriminant_schema_violation.1 emptyHeap 7 [] (by decide)).2,
   (cert_from_cbor_wrong_discriminant_schema_violation.2 emptyHeap 7 [] (by decide)).2⟩

/-- C6: the certificate constructors fail with a null-argument error on
a null required credential (creating nothing); a null optional anchor is
accepted and stored as absent; and on success each non-null argument's
reference count is incremented by exactly one, leaving the caller's own
references valid. -/
theorem cert_new_null_checks_and_ref_increments :
    (∀ (h : Heap) (a : Option Nat),
      cardano_update_drep_cert_new h none a = .error .pointerIsNull) ∧
    (∀ (h : Heap) (c : Nat), ∃ h',
      cardano_update_drep_cert_new h (some c) none =
        .ok (h', { ref_count := 1, last_error := "", credential := c, anchor := none }) ∧
      h'.credRc c = h.credRc c + 1 ∧
      (∀ p, p ≠ c → h'.credRc p = h.credRc p) ∧
      (∀ p, h'.anchorRc p = h.anchorRc p)) ∧
    (∀ (h : Heap) (c a : Nat), ∃ h',
      cardano_update_drep_cert_new h (some c) (some a) =
        .ok (h', { ref_count := 1, last_error := "", credential := c, anchor := some a }) ∧
      h'.credRc c = h.credRc c + 1 ∧
      h'.anchorRc a = h.anchorRc a + 1 ∧
      (∀ p, p ≠ c → h'.credRc p = h.credRc p) ∧
      (∀ p, p ≠ a → h'.anchorRc p = h.anchorRc p)) ∧
    (∀ h : Heap, cardano_stake_registration_cert_new h none = .error .pointerIsNull) ∧
    (∀ (h : Heap) (c : Nat), ∃ h',
      cardano_stake_registration_cert_new h (some c) =
        .ok (h', { ref_count := 1, last_error := "", credential := c }) ∧
      h'.credRc c = h.credRc c + 1 ∧
      (∀ p, p ≠ c → h'.credRc p = h.credRc p)) := by
  refine ⟨fun h a => rfl, fun h c => ⟨_, rfl, ?_, ?_, ?_⟩,
          fun h c a => ⟨_, rfl, ?_, ?_, ?_, ?_⟩,
          fun h => rfl, fun h c => ⟨_, rfl, ?_, ?_⟩⟩ <;>
    simp [cardano_credential_ref, cardano_anchor_ref, Function.update_apply] <;>
    intro p hp <;>
    simp [Function.update_apply, hp]

/-- C7: every certificate setter fails with a null-argument error on a
null argument; on success it increments the new value's reference count
and then decrements the old value's, in that order, so a self-assignment
leaves the count unchanged and never deallocates the object (the freed
log does not grow). -/
theorem cert_setters_null_check_and_ref_order :
    (∀ (h : Heap) (v : Option Nat),
      cardano_update_drep_cert_set_credential h none v = .error .pointerIsNull) ∧
    (∀ (h : Heap) (x : cardano_update_drep_cert_t),
      cardano_update_drep_cert_set_credential h (some x) none = .error .pointerIsNull) ∧
    (∀ (h : Heap) (v : Option Nat),
      cardano_update_drep_cert_set_anchor h none v = .error .pointerIsNull) ∧
    (∀ (h : Heap) (x : cardano_update_drep_cert_t),
      cardano_update_drep_cert_set_anchor h (some x) none = .error .pointerIsNull) ∧
    (∀ (h : Heap) (v : Option Nat),
      cardano_stake_registration_cert_set_credential h none v = .error .pointerIsNull) ∧
    (∀ (h : Heap) (x : cardano_stake_registration_cert_t),
      cardano_stake_registration_cert_set_credential h (some x) none = .error .pointerIsNull) ∧
    (∀ (h : Heap) (x : cardano_update_drep_cert_t) (p : Nat), p ≠ x.credential → ∃ h',
      cardano_update_drep_cert_set_credential h (some x) (some p)
        = .ok (h', { x with credential := p }) ∧
      h'.credRc p = h.credRc p + 1 ∧
      h'.credRc x.credential = h.credRc x.credential - 1) ∧
    (∀ (h : Heap) (x : cardano_update_drep_cert_t), 1 ≤ h.credRc x.credential → ∃ h',
      cardano_update_drep_cert_set_credential h (some x) (some x.credential)
        = .ok (h', x) ∧
      h'.credRc x.credential = h.credRc x.credential ∧
      h'.freedCred = h.freedCred) ∧
    (∀ (h : Heap) (x : cardano_update_drep_cert_t) (a : Nat),
      x.anchor = some a → 1 ≤ h.anchorRc a → ∃ h',
      cardano_update_drep_cert_set_anchor h (some x) (some a) = .ok (h', x) ∧
      h'.anchorRc a = h.anchorRc a ∧
      h'.freedAnchor = h.freedAnchor) ∧
    (∀ (h : Heap) (x : cardano_stake_registration_cert_t), 1 ≤ h.credRc x.credential → ∃ h',
      cardano_stake_registration_cert_set_credential h (some x) (some x.credential)
        = .ok (h', x) ∧
      h'.credRc x.credential = h.credRc x.credential ∧
      h'.freedCred = h.freedCred) := by
  refine ⟨fun h v => rfl, fun h x => rfl, fun h v => rfl, fun h x => rfl,
    fun h v => rfl, fun h x => rfl, ?_, ?_, ?_, ?_⟩
  · intro h x p hp
    refine ⟨_, rfl, ?_, ?_⟩ <;>
      simp [cardano_credential_ref, cardano_credential_unref,
        Function.update_apply, hp, Ne.symm hp] <;>
      split <;> simp [Function.update_apply, hp, Ne.symm hp] <;> omega
  · intro h x hx
    have hne : h.credRc x.credential + 1 ≠ 1 := by omega
    refine ⟨_, rfl, ?_, ?_⟩ <;>
      simp [cardano_credential_ref, cardano_credential_unref,
        Function.update_apply, hne]
  · intro h x a hxa hx
    obtain ⟨rc, le, cr, an⟩ := x
    replace hxa : an = some a := hxa
    subst hxa
    have hne : h.anchorRc a + 1 ≠ 1 := by omega
    refine ⟨_, rfl, ?_, ?_⟩ <;>
      simp [cardano_anchor_ref, cardano_anchor_unref,
        Function.update_apply, hne]
  · intro h x hx
    have hne : h.credRc x.credential + 1 ≠ 1 := by omega
    refine ⟨_, rfl, ?_, ?_⟩ <;>
      simp [cardano_credential_ref, cardano_credential_unref,
        Function.update_apply, hne]

/-- Witness for C7: a self-assignment on a live credential. -/
theorem cert_setters_null_check_and_ref_order_witness :
    1 ≤ oneHeap.credRc 0 ∧
    ∃ h', cardano_update_drep_cert_set_credential oneHeap
        (some { ref_count := 1, last_error := "", credential := 0, anchor := none })
        (some 0)
      = .ok (h', { ref_count := 1, last_error := "", credential := 0, anchor := none }) ∧
      h'.credRc 0 = oneHeap.credRc 0 ∧ h'.freedCred = oneHeap.freedCred :=
  ⟨by decide,
   cert_setters_null_check_and_ref_order.2.2.2.2.2.2.2.1 oneHeap
     { ref_count := 1, last_error := "", credential := 0, anchor := none } (by decide)⟩

/-- C8: immediately after `new` a certificate's reference count is 1;
`ref` increments the count by exactly 1; and the `unref` that brings the
count to 0 sets the caller's pointer to null. -/
theorem cert_refcount_lifecycle :
    (∀ (h h' : Heap) (c : Nat) (a : Option Nat) (x : cardano_update_drep_cert_t),
      cardano_update_drep_cert_new h (some c) a = .ok (h', x) → x.ref_count = 1) ∧
    (∀ x : cardano_update_drep_cert_t,
      cardano_update_drep_cert_refcount (cardano_update_drep_cert_ref (some x))
        = cardano_update_drep_cert_refcount (some x) + 1) ∧
    (∀ (h : Heap) (x : cardano_update_drep_cert_t), x.ref_count = 1 →
      (cardano_update_drep_cert_unref h (some x)).2 = none) ∧
    (∀ (h h' : Heap) (c : Nat) (x : cardano_stake_registration_cert_t),
      cardano_stake_registration_cert_new h (some c) = .ok (h', x) → x.ref_count = 1) ∧
    (∀ x : cardano_stake_registration_cert_t,
      cardano_stake_registration_cert_refcount (cardano_stake_registration_cert_ref (some x))
        = cardano_stake_registration_cert_refcount (some x) + 1) ∧
    (∀ (h : Heap) (x : cardano_stake_registration_cert_t), x.ref_count = 1 →
      (cardano_stake_registration_cert_unref h (some x)).2 = none) := by
  refine ⟨?_, ?_, ?_, ?_, ?_, ?_⟩
  · intro h h' c a x hx
    simp [cardano_update_drep_cert_new] at hx
    rw [← hx.2]
  · intro x
    simp [cardano_update_drep_cert_ref, cardano_update_drep_cert_refcount]
  · intro h x hx
    simp [cardano_update_drep_cert_unref, hx]
  · intro h h' c x hx
    simp [cardano_stake_registration_cert_new] at hx
    rw [← hx.2]
  · intro x
    simp [cardano_stake_registration_cert_ref, cardano_stake_registration_cert_refcount]
  · intro h x hx
    simp [cardano_stake_registration_cert_unref, hx]

/-- Witness for C8 at concrete certificates with count 1. -/
theorem cert_refcount_lifecycle_witness :
    cardano_update_drep_cert_new emptyHeap (some 0) none =
      .ok (cardano_credential_ref emptyHeap (some 0),
        { ref_count := 1, last_error := "", credential := 0, anchor := none }) ∧
    ({ ref_count := 1, last_error := "", credential := 0, anchor := none } :
      cardano_update_drep_cert_t).ref_count = 1 ∧
    (cardano_update_drep_cert_unref emptyHeap
      (some { ref_count := 1, last_error := "", credential := 0, anchor := none })).2 = none ∧
    (cardano_stake_registration_cert_unref emptyHeap
      (some { ref_count := 1, last_error := "", credential := 0 })).2 = none :=
  ⟨rfl,
   cert_refcount_lifecycle.1 emptyHeap (cardano_credential_ref emptyHeap (some 0)) 0 none
     { ref_count := 1, last_error := "", credential := 0, anchor := none } rfl,
   cert_refcount_lifecycle.2.2.1 emptyHeap
     { ref_count := 1, last_error := "", credential := 0, anchor := none } rfl,
   cert_refcount_lifecycle.2.2.2.2.2 emptyHeap
     { ref_count := 1, last_error := "", credential := 0 } rfl⟩

/-- C9: encoding an AtLeast (n-of-k) script with required = 2 and three
pub-key children and decoding it back yields required = 2 and the same
three children in the original order; on that node
`cardano_script_n_of_k_get_required` returns 2 and
`cardano_script_n_of_k_get_length` returns 3. -/
theorem script_n_of_k_roundtrip_scenario (a b c : Nat) :
    cardano_script_n_of_k_from_cbor
        (cardano_script_n_of_k_to_cbor ⟨2, [.pubKey a, .pubKey b, .pubKey c]⟩)
      = .ok (⟨2, [.pubKey a, .pubKey b, .pubKey c]⟩, []) ∧
    cardano_script_n_of_k_get_required
        (some ⟨2, [.pubKey a, .pubKey b, .pubKey c]⟩) = 2 ∧
    cardano_script_n_of_k_get_length
        (some ⟨2, [.pubKey a, .pubKey b, .pubKey c]⟩) = 3 :=
  ⟨rfl, rfl, rfl⟩

/-- C10: the update-DRep accessors are total on null input
(`get_credential`/`get_anchor` give null, `refcount` gives 0,
`ref`/`unref` are no-ops); `get_anchor` on an absent anchor returns null
without touching any reference count; and a successful getter returns
the stored child with its reference count incremented by exactly 1. -/
theorem update_drep_accessors_null_totality :
    (∀ h : Heap, cardano_update_drep_cert_get_credential h none = (h, none)) ∧
    (∀ h : Heap, cardano_update_drep_cert_get_anchor h none = (h, none)) ∧
    cardano_update_drep_cert_refcount none = 0 ∧
    cardano_update_drep_cert_ref none = none ∧
    (∀ h : Heap, cardano_update_drep_cert_unref h none = (h, none)) ∧
    (∀ (h : Heap) (x : cardano_update_drep_cert_t), x.anchor = none →
      cardano_update_drep_cert_get_anchor h (some x) = (h, none)) ∧
    (∀ (h : Heap) (x : cardano_update_drep_cert_t) (a : Nat), x.anchor = some a →
      (cardano_update_drep_cert_get_anchor h (some x)).2 = some a ∧
      (cardano_update_drep_cert_get_anchor h (some x)).1.anchorRc a = h.anchorRc a + 1) ∧
    (∀ (h : Heap) (x : cardano_update_drep_cert_t),
      (cardano_update_drep_cert_get_credential h (some x)).2 = some x.credential ∧
      (cardano_update_drep_cert_get_credential h (some x)).1.credRc x.credential
        = h.credRc x.credential + 1) := by
  refine ⟨fun h => rfl, fun h => rfl, rfl, rfl, fun h => rfl, ?_, ?_, ?_⟩
  · intro h x hx
    simp [cardano_update_drep_cert_get_anchor, hx, cardano_anchor_ref]
  · intro h x a hx
    simp [cardano_update_drep_cert_get_anchor, hx, cardano_anchor_ref,
      Function.update_apply]
  · intro h x
    simp [cardano_update_drep_cert_get_credential, cardano_credential_ref,
      Function.update_apply]

/-- Witness for C10 at concrete certificates. -/
theorem update_drep_accessors_null_totality_witness :
    cardano_update_drep_cert_get_anchor emptyHeap
      (some { ref_count := 1, last_error := "", credential := 0, anchor := none })
      = (emptyHeap, none) ∧
    (cardano_update_drep_cert_get_anchor emptyHeap
      (some { ref_count := 1, last_error := "", credential := 0, anchor := some 1 })).2
      = some 1 :=
  ⟨update_drep_accessors_null_totality.2.2.2.2.2.1 emptyHeap
     { ref_count := 1, last_error := "", credential := 0, anchor := none } rfl,
   (update_drep_accessors_null_totality.2.2.2.2.2.2.1 emptyHeap
     { ref_count := 1, last_error := "", credential := 0, anchor := some 1 } 1 rfl).1⟩
